import Mathlib

/-!
Verification of `packages/expo-auth-session/src/Errors.ts`: the OAuth/OIDC
error catalog (`errorCodeMessages`), the `ResponseError` constructor and the
`AuthError` constructor, shallowly embedded in Lean.

JavaScript semantics reflected in the embedding:
- an optional string field is `Option String` (`none` = the field is absent /
  `undefined`);
- the JavaScript truthiness test `if (s)` on a string-or-undefined value is
  `truthy : Option String → Bool` (absent and the empty string are falsy);
- the nullish-coalescing operator `a ?? b` is `Option.orElse` (it keeps an
  empty string, unlike the truthiness test);
- object property access `obj[key]` on the catalog object literals is
  association-list lookup; indexing into `undefined` (which throws a
  `TypeError` at runtime) is modelled by the constructor returning `none`,
  so `ResponseError.construct p cat = none` means construction threw;
- the raw config record (`ResponseErrorConfig extends Record<string, any>`)
  is a structure with the named optional fields plus an `extra`
  association list for arbitrary additional string fields; the optional
  `state` field of `AuthErrorConfig` is representable here because the TS
  record type is open.
- `CodedError` (the external base class from `@unimodules/core`) just stores
  the `code` and `message` passed to `super`, reflected as the `code` and
  `message` fields of the constructed value.
-/

/-- The raw server error payload (`ResponseErrorConfig` in the source):
required `error` code, optional `error_description`, `error_uri`, the
optional `state` of `AuthErrorConfig`, and any extra string-keyed fields
of the open record. -/
structure ResponseErrorConfig where
  error : String
  error_description : Option String
  error_uri : Option String
  state : Option String
  extra : List (String × String)
deriving Repr, DecidableEq

/-- `AuthErrorConfig` extends `ResponseErrorConfig` with the optional
`state` field, which the open record type above already carries. -/
abbrev AuthErrorConfig := ResponseErrorConfig

/-- The message table of the `auth` category of `errorCodeMessages`
(source lines 31-60), verbatim. -/
def authErrorMessages : List (String × String) :=
  [("invalid_request", "The request is missing a required parameter, includes an invalid parameter value, includes a parameter more than once, or is otherwise malformed."),
   ("unauthorized_client", "The client is not authorized to request an authorization code using this method."),
   ("access_denied", "The resource owner or authorization server denied the request."),
   ("unsupported_response_type", "The authorization server does not support obtaining an authorization code using this method."),
   ("invalid_scope", "The requested scope is invalid, unknown, or malformed."),
   ("server_error", "The authorization server encountered an unexpected condition that prevented it from fulfilling the request. (This error code is needed because a 500 Internal Server Error HTTP status code cannot be returned to the client via an HTTP redirect.)"),
   ("temporarily_unavailable", "The authorization server is currently unable to handle the request due to a temporary overloading or maintenance of the server.  (This error code is needed because a 503 Service Unavailable HTTP status code cannot be returned to the client via an HTTP redirect.)"),
   ("interaction_required", "Auth server requires user interaction of some form to proceed. This error may be returned when the prompt parameter value in the auth request is none, but the auth request cannot be completed without displaying a user interface for user interaction."),
   ("login_required", "Auth server requires user authentication. This error may be returned when the prompt parameter value in the auth request is none, but the auth request cannot be completed without displaying a user interface for user authentication."),
   ("account_selection_required", "User is required to select a session at the auth server. The user may be authenticated at the auth server with different associated accounts, but the user did not select a session. This error may be returned when the prompt parameter value in the auth request is `none`, but the auth request cannot be completed without displaying a user interface to prompt for a session to use."),
   ("consent_required", "Auth server requires user consent. This error may be returned when the prompt parameter value in the auth request is none, but the auth request cannot be completed without displaying a user interface for user consent."),
   ("invalid_request_uri", "The `request_uri` in the auth request returns an error or contains invalid data."),
   ("invalid_request_object", "The request parameter contains an invalid request object."),
   ("request_not_supported", "The OP does not support use of the `request` parameter defined in Section 6. (https://openid.net/specs/openid-connect-core-1_0.html#JWTRequests)"),
   ("request_uri_not_supported", "The OP does not support use of the `request_uri` parameter defined in Section 6. (https://openid.net/specs/openid-connect-core-1_0.html#JWTRequests)"),
   ("registration_not_supported", "The OP does not support use of the `registration` parameter defined in Section 7.2.1. (https://openid.net/specs/openid-connect-core-1_0.html#RegistrationParameter)")]

/-- The catalog object `errorCodeMessages` (source lines 28-61): a single
`auth` category. -/
def errorCodeMessages : List (String × List (String × String)) :=
  [("auth", authErrorMessages)]

/-- JavaScript truthiness of a string-or-undefined value: `undefined` and
the empty string are falsy, every other string is truthy. -/
def truthy : Option String → Bool
  | none => false
  | some s => s != ""

/-- The constructed `ResponseError` value: `code` and `message` are the
arguments passed to the `CodedError` super-constructor; `description`,
`uri` and `params` are the instance fields set on source lines 95-97. -/
structure ResponseErrorValue where
  code : String
  message : String
  description : Option String
  uri : Option String
  params : ResponseErrorConfig
deriving Repr, DecidableEq

/-- The `ResponseError` constructor (source lines 83-98).

`errorCodeMessages[errorCodeType]` is the outer catalog lookup; when the
category is absent it evaluates to `undefined` and the immediately
following `[error]` index throws a `TypeError`, modelled by the `none`
result. Otherwise `message` is the (possibly `undefined`) code lookup,
`errorMessage` is resolved by the truthiness cascade of lines 87-93, and
the fields are set as on lines 94-97 (`description` uses `??`, which keeps
an empty `error_description`). -/
def ResponseError.construct (params : ResponseErrorConfig) (errorCodeType : String) :
    Option ResponseErrorValue :=
  match errorCodeMessages.lookup errorCodeType with
  | none => none
  | some category =>
    let message : Option String := category.lookup params.error
    let errorMessage : String :=
      if truthy message then
        message.getD "" ++
          (if truthy params.error_description then
            "\nMore info: " ++ params.error_description.getD ""
          else "")
      else if truthy params.error_description then
        params.error_description.getD ""
      else
        "An unknown error occurred"
    some ⟨params.error, errorMessage,
          params.error_description.orElse (fun _ => message),
          params.error_uri, params⟩

/-- The constructed `AuthError` value: a `ResponseErrorValue` plus the
optional `state` field. -/
structure AuthErrorValue extends ResponseErrorValue where
  state : Option String
deriving Repr, DecidableEq

/-- The `AuthError` constructor (source lines 110-113): delegates to the
`ResponseError` constructor with category `"auth"` and copies
`response.state` unchanged. -/
def AuthError.construct (response : AuthErrorConfig) : Option AuthErrorValue :=
  (ResponseError.construct response "auth").map (fun v => ⟨v, response.state⟩)

/-- Every message stored in the auth catalog is a non-empty string, hence
truthy under the JavaScript test of source line 87. -/
theorem authErrorMessages_lookup_truthy (c m : String)
    (h : authErrorMessages.lookup c = some m) : truthy (some m) = true := by
  simp only [authErrorMessages, List.lookup] at h
  repeat' split at h
  all_goals simp_all [truthy]
  all_goals subst h
  all_goals decide

/-- The category lookup for `"auth"` always succeeds. -/
theorem errorCodeMessages_lookup_auth :
    errorCodeMessages.lookup "auth" = some authErrorMessages := rfl

-- Sanity checks on the concrete scenarios of the spec.
example :
    (ResponseError.construct ⟨"access_denied", none, none, none, []⟩ "auth").map
      (fun v => v.message) =
    some "The resource owner or authorization server denied the request." := by
  rfl

example :
    (ResponseError.construct ⟨"totally_made_up", none, none, none, []⟩ "auth").map
      (fun v => v.message) =
    some "An unknown error occurred" := by
  rfl

example :
    (ResponseError.construct ⟨"invalid_scope", some "scope xyz not recognized", none, none, []⟩
      "auth").map (fun v => v.message) =
    some "The requested scope is invalid, unknown, or malformed.\nMore info: scope xyz not recognized" := by
  rfl

example :
    ResponseError.construct ⟨"access_denied", none, none, none, []⟩ "token" = none := by
  rfl

/-! ### Claim C1 -/

/-- C1 counterexample: with the unknown category `"token"` and a record
whose error code is non-empty, construction does throw (the outer catalog
lookup yields `undefined` and indexing it fails), so construction is not a
total function over all category strings. -/
theorem c1_counterexample :
    ResponseError.construct ⟨"access_denied", none, none, none, []⟩ "token" = none := rfl

/-- C1 (amended): for every input record and every category that is
present in the catalog, constructing a `ResponseError` never throws: an
unknown code yields a catalog miss handled by the fallback policy, and
construction is total over such inputs. For a category absent from the
catalog, construction throws. -/
theorem c1_construct_total_on_known_category (p : ResponseErrorConfig)
    (cat : String) (table : List (String × String))
    (hcat : errorCodeMessages.lookup cat = some table) :
    ∃ v, ResponseError.construct p cat = some v := by
  unfold ResponseError.construct
  rw [hcat]
  exact ⟨_, rfl⟩

/-- C1 witness: the category `"auth"` is in the catalog and construction
with an unknown code succeeds there. -/
theorem c1_witness :
    errorCodeMessages.lookup "auth" = some authErrorMessages ∧
    ∃ v, ResponseError.construct ⟨"mystery_code", none, none, none, []⟩ "auth" = some v :=
  ⟨rfl, c1_construct_total_on_known_category ⟨"mystery_code", none, none, none, []⟩
    "auth" authErrorMessages rfl⟩

/-! ### Claim C2 -/

/-- C2: for every input whose error code has no entry in the catalog for
the given category and whose `error_description` is absent, the
constructed message is exactly the literal `"An unknown error occurred"`
(and the whole value degrades gracefully: absent description, mirrored
uri, preserved params). -/
theorem c2_unknown_code_no_description_fallback (p : ResponseErrorConfig)
    (cat : String) (table : List (String × String))
    (hcat : errorCodeMessages.lookup cat = some table)
    (hcode : table.lookup p.error = none)
    (hdesc : p.error_description = none) :
    ResponseError.construct p cat =
      some ⟨p.error, "An unknown error occurred", none, p.error_uri, p⟩ := by
  unfold ResponseError.construct
  rw [hcat]
  simp [hcode, hdesc, truthy, Option.orElse]

/-- C2 witness: the concrete scenario `{error: "totally_made_up"}`. -/
theorem c2_witness :
    ResponseError.construct ⟨"totally_made_up", none, none, none, []⟩ "auth" =
      some ⟨"totally_made_up", "An unknown error occurred", none, none,
            ⟨"totally_made_up", none, none, none, []⟩⟩ :=
  c2_unknown_code_no_description_fallback ⟨"totally_made_up", none, none, none, []⟩
    "auth" authErrorMessages rfl rfl rfl

/-! ### Claim C7 -/

/-- C7: for every input record and category, whenever construction
produces a value, its `params` field equals the complete original input
record, extra fields included; nothing is discarded or modified. -/
theorem c7_params_preserved (p : ResponseErrorConfig) (cat : String)
    (v : ResponseErrorValue) (h : ResponseError.construct p cat = some v) :
    v.params = p := by
  unfold ResponseError.construct at h
  cases hcat : errorCodeMessages.lookup cat with
  | none => rw [hcat] at h; cases h
  | some table =>
      rw [hcat] at h
      injection h with h
      subst h
      rfl

/-- C7 witness: a record with an extra field and every optional field set
is preserved verbatim in `params`. -/
theorem c7_witness :
    (ResponseErrorValue.mk "access_denied"
      "The resource owner or authorization server denied the request.\nMore info: no"
      (some "no") (some "https://example.com/err")
      ⟨"access_denied", some "no", some "https://example.com/err", some "xyz",
       [("extra_field", "1")]⟩).params =
    ⟨"access_denied", some "no", some "https://example.com/err", some "xyz",
     [("extra_field", "1")]⟩ :=
  c7_params_preserved
    ⟨"access_denied", some "no", some "https://example.com/err", some "xyz",
     [("extra_field", "1")]⟩ "auth" _ rfl

/-! ### Claim C8 -/

/-- C8: for every input record and category, whenever construction
produces a value, its `uri` field equals the input `error_uri` when that
is present and is absent when `error_uri` is absent. -/
theorem c8_uri_mirrors_error_uri (p : ResponseErrorConfig) (cat : String)
    (v : ResponseErrorValue) (h : ResponseError.construct p cat = some v) :
    v.uri = p.error_uri := by
  unfold ResponseError.construct at h
  cases hcat : errorCodeMessages.lookup cat with
  | none => rw [hcat] at h; cases h
  | some table =>
      rw [hcat] at h
      injection h with h
      subst h
      rfl

/-- C8 witness: a present `error_uri` is mirrored into `uri`. -/
theorem c8_witness :
    (ResponseErrorValue.mk "invalid_request_object"
      "The request parameter contains an invalid request object."
      (some "The request parameter contains an invalid request object.")
      (some "https://example.com/more") 
      ⟨"invalid_request_object", none, some "https://example.com/more", none, []⟩).uri =
    some "https://example.com/more" :=
  c8_uri_mirrors_error_uri
    ⟨"invalid_request_object", none, some "https://example.com/more", none, []⟩
    "auth" _ rfl

/-! ### Claim C3 -/

/-- C3: for every error code in the `"auth"` catalog with catalog text `m`
and every non-empty `error_description` `d`, construction yields message
`m ++ "\nMore info: " ++ d` and description `d`. -/
theorem c3_known_code_with_description (p : ResponseErrorConfig) (m d : String)
    (hcode : authErrorMessages.lookup p.error = some m)
    (hdesc : p.error_description = some d) (hd : d ≠ "") :
    ResponseError.construct p "auth" =
      some ⟨p.error, m ++ "\nMore info: " ++ d, some d, p.error_uri, p⟩ := by
  have hm : m ≠ "" := by
    simpa [truthy] using authErrorMessages_lookup_truthy p.error m hcode
  unfold ResponseError.construct
  rw [errorCodeMessages_lookup_auth]
  simp [hcode, hdesc, hm, truthy, hd, Option.orElse, String.append_assoc]

/-- C3 witness: the concrete scenario
`{error: "invalid_scope", error_description: "scope xyz not recognized"}`. -/
theorem c3_witness :
    ResponseError.construct
      ⟨"invalid_scope", some "scope xyz not recognized", none, none, []⟩ "auth" =
    some ⟨"invalid_scope",
          "The requested scope is invalid, unknown, or malformed.\nMore info: scope xyz not recognized",
          some "scope xyz not recognized", none,
          ⟨"invalid_scope", some "scope xyz not recognized", none, none, []⟩⟩ :=
  c3_known_code_with_description
    ⟨"invalid_scope", some "scope xyz not recognized", none, none, []⟩
    "The requested scope is invalid, unknown, or malformed."
    "scope xyz not recognized" rfl rfl (by decide)

/-! ### Claim C4 -/

/-- C4: for every error code in the `"auth"` catalog with catalog text `m`
and no `error_description`, construction yields message `m` and
description `m` (the description defaults to the catalog explanation),
with `uri` mirroring `error_uri`. -/
theorem c4_known_code_no_description (p : ResponseErrorConfig) (m : String)
    (hcode : authErrorMessages.lookup p.error = some m)
    (hdesc : p.error_description = none) :
    ResponseError.construct p "auth" =
      some ⟨p.error, m, some m, p.error_uri, p⟩ := by
  have hm : m ≠ "" := by
    simpa [truthy] using authErrorMessages_lookup_truthy p.error m hcode
  unfold ResponseError.construct
  rw [errorCodeMessages_lookup_auth]
  simp [hcode, hdesc, hm, truthy, Option.orElse, String.append_empty]

/-- C4 witness: the concrete scenario `{error: "access_denied"}`: message
and description both equal the catalog text and `uri` is absent. -/
theorem c4_witness :
    ResponseError.construct ⟨"access_denied", none, none, none, []⟩ "auth" =
    some ⟨"access_denied",
          "The resource owner or authorization server denied the request.",
          some "The resource owner or authorization server denied the request.",
          none, ⟨"access_denied", none, none, none, []⟩⟩ :=
  c4_known_code_no_description ⟨"access_denied", none, none, none, []⟩
    "The resource owner or authorization server denied the request." rfl rfl

/-! ### Claim C5 -/

/-- C5 counterexample: with the unknown code `"totally_made_up"` and the
present-but-empty description `""`, the constructed message is the
fallback string `"An unknown error occurred"`, not the present description
`""` verbatim as the claim states for every present string value. -/
theorem c5_counterexample :
    ResponseError.construct ⟨"totally_made_up", some "", none, none, []⟩ "auth" =
      some ⟨"totally_made_up", "An unknown error occurred", some "", none,
            ⟨"totally_made_up", some "", none, none, []⟩⟩ ∧
    "An unknown error occurred" ≠ "" :=
  ⟨rfl, by decide⟩

/-- C5 (amended): for every input whose error code is not in the catalog
for the given category and whose `error_description` is present and
non-empty, the constructed message equals that `error_description`
verbatim, with no catalog text and no "More info" prefix; a present but
empty description instead falls through to the fallback string. -/
theorem c5_unknown_code_nonempty_description (p : ResponseErrorConfig)
    (cat : String) (table : List (String × String)) (d : String)
    (hcat : errorCodeMessages.lookup cat = some table)
    (hcode : table.lookup p.error = none)
    (hdesc : p.error_description = some d) (hd : d ≠ "") :
    ResponseError.construct p cat =
      some ⟨p.error, d, some d, p.error_uri, p⟩ := by
  unfold ResponseError.construct
  rw [hcat]
  simp [hcode, hdesc, truthy, hd, Option.orElse]

/-- C5 witness: the concrete scenario
`{error: "totally_made_up", error_description: "custom text"}`. -/
theorem c5_witness :
    ResponseError.construct ⟨"totally_made_up", some "custom text", none, none, []⟩ "auth" =
      some ⟨"totally_made_up", "custom text", some "custom text", none,
            ⟨"totally_made_up", some "custom text", none, none, []⟩⟩ :=
  c5_unknown_code_nonempty_description
    ⟨"totally_made_up", some "custom text", none, none, []⟩
    "auth" authErrorMessages "custom text" rfl rfl rfl (by decide)

/-! ### Claim C6 -/

/-- C6: for every `AuthErrorConfig`, constructing an `AuthError` agrees
with constructing a `ResponseError` from the same record with category
`"auth"` on every field (code, message, description, uri, params), and
additionally the result's `state` equals the input's `state` unchanged
(present when present, absent when omitted). -/
theorem c6_auth_error_refines_response_error (r : AuthErrorConfig) :
    ∃ v w, AuthError.construct r = some v ∧
      ResponseError.construct r "auth" = some w ∧
      v.code = w.code ∧ v.message = w.message ∧
      v.description = w.description ∧ v.uri = w.uri ∧
      v.params = w.params ∧ v.state = r.state := by
  unfold AuthError.construct ResponseError.construct
  rw [errorCodeMessages_lookup_auth]
  exact ⟨_, _, rfl, rfl, rfl, rfl, rfl, rfl, rfl, rfl⟩

/-! ### Claim C9 -/

/-- C9: the catalog populates exactly one category, `"auth"`, containing
exactly the sixteen standard OAuth2/OIDC error codes in order, each mapped
to its fixed message string (the catalog is a pure `def` of literal data,
so no operation of the embedding can mutate it). -/
theorem c9_catalog_shape :
    errorCodeMessages = [("auth", authErrorMessages)] ∧
    errorCodeMessages.map Prod.fst = ["auth"] ∧
    authErrorMessages.map Prod.fst =
      ["invalid_request", "unauthorized_client", "access_denied",
       "unsupported_response_type", "invalid_scope", "server_error",
       "temporarily_unavailable", "interaction_required", "login_required",
       "account_selection_required", "consent_required", "invalid_request_uri",
       "invalid_request_object", "request_not_supported",
       "request_uri_not_supported", "registration_not_supported"] ∧
    authErrorMessages.length = 16 :=
  ⟨rfl, rfl, rfl, rfl⟩

/-! ### Claim C10 -/

/-- C10: message resolution and description resolution use different
presence tests. For category `"auth"`, an error code not in the catalog
and `error_description` equal to `""`, the message is the fallback
`"An unknown error occurred"` (the truthiness test treats `""` as absent)
while the description equals `""` (the nullish test keeps it), so the two
fields disagree about whether a description was supplied. -/
theorem c10_empty_description_discrepancy (p : ResponseErrorConfig)
    (hcode : authErrorMessages.lookup p.error = none)
    (hdesc : p.error_description = some "") :
    ResponseError.construct p "auth" =
      some ⟨p.error, "An unknown error occurred", some "", p.error_uri, p⟩ := by
  unfold ResponseError.construct
  rw [errorCodeMessages_lookup_auth]
  simp [hcode, hdesc, truthy, Option.orElse]

/-- C10 witness: the concrete input
`{error: "made_up_code", error_description: ""}`. -/
theorem c10_witness :
    ResponseError.construct ⟨"made_up_code", some "", none, none, []⟩ "auth" =
      some ⟨"made_up_code", "An unknown error occurred", some "", none,
            ⟨"made_up_code", some "", none, none, []⟩⟩ :=
  c10_empty_description_discrepancy ⟨"made_up_code", some "", none, none, []⟩ rfl rfl
